import Mathlib

/-!
Verification of the Podcast2Newsletter pipeline scripts (main.py, action.py,
multi.py, geminifull.py) against their specification.  Python strings are
modelled as lists of characters, nonnegative integer quantities as `Nat`,
audio offsets as `ℚ`, fallible computations as `Option`/`Except`.  Uncaught
Python exceptions that terminate a script are modelled as `Except.error`
results; `print`-and-return paths are modelled as explicit skip values.
-/

set_option autoImplicit false

namespace Podcast2Newsletter

/-- Python strings are modelled as lists of characters. -/
abbrev Str := List Char

/-- Decimal digit character for a digit `d < 10`, as produced by Python
when it renders an integer in decimal. -/
def digitChar (d : Nat) : Char := Char.ofNat (48 + d)

/-- Fuel-indexed big-endian decimal rendering of a natural number: peels the
low digit into the accumulator and recurses on the quotient.  The fuel is
always sufficient at the call site in `natToStr`. -/
def toDecimalGo : Nat → Nat → Str → Str
  | 0, _, acc => acc
  | fuel + 1, m, acc =>
    if m < 10 then digitChar m :: acc
    else toDecimalGo fuel (m / 10) (digitChar (m % 10) :: acc)

/-- Decimal rendering of a natural number, as Python `str` renders a
nonnegative `int`: no sign, no padding, no leading zeros. -/
def natToStr (n : Nat) : Str := toDecimalGo (n + 1) n []

/-- Python format spec `:02` applied to a nonnegative integer already
rendered in decimal: left-pad with zeros to a minimum width of 2; wider
inputs are kept unchanged. -/
def zfill2 (l : Str) : Str := List.replicate (2 - l.length) '0' ++ l

namespace MainPy

/-- The `format_timestamp` function of main.py (lines 249-253): hours are
the integer quotient by 3600, minutes the quotient of the remainder by 60,
seconds the remainder modulo 60, each rendered with the `:02` format spec
and joined with colons. -/
def format_timestamp (seconds : Nat) : Str :=
  let hours := seconds / 3600
  let minutes := seconds % 3600 / 60
  let secs := seconds % 60
  zfill2 (natToStr hours) ++ ':' :: (zfill2 (natToStr minutes) ++ ':' :: zfill2 (natToStr secs))

end MainPy

namespace ActionPy

/-- The `format_timestamp` function of action.py (lines 153-160), verbatim
the same computation as in main.py. -/
def format_timestamp (seconds : Nat) : Str :=
  let hours := seconds / 3600
  let minutes := seconds % 3600 / 60
  let secs := seconds % 60
  zfill2 (natToStr hours) ++ ':' :: (zfill2 (natToStr minutes) ++ ':' :: zfill2 (natToStr secs))

end ActionPy

namespace MultiPy

/-- The `format_timestamp` function of multi.py (lines 83-87), verbatim the
same computation as in main.py. -/
def format_timestamp (seconds : Nat) : Str :=
  let hours := seconds / 3600
  let minutes := seconds % 3600 / 60
  let secs := seconds % 60
  zfill2 (natToStr hours) ++ ':' :: (zfill2 (natToStr minutes) ++ ':' :: zfill2 (natToStr secs))

end MultiPy

namespace GeminiFullPy

/-- The nested `format_timestamp` function of geminifull.py (lines 86-90),
verbatim the same computation as in main.py. -/
def format_timestamp (seconds : Nat) : Str :=
  let hours := seconds / 3600
  let minutes := seconds % 3600 / 60
  let secs := seconds % 60
  zfill2 (natToStr hours) ++ ':' :: (zfill2 (natToStr minutes) ++ ':' :: zfill2 (natToStr secs))

end GeminiFullPy

/-- A string matches the anchored pattern of a timestamp display,
`^\d{2,}:\d{2}:\d{2}$`: an hours field of at least two digits, then a colon,
then exactly two digits, a colon, and exactly two digits. -/
def MatchesHMS (l : Str) : Prop :=
  ∃ h m s : Str,
    l = h ++ ':' :: (m ++ ':' :: s) ∧
    2 ≤ h.length ∧ (∀ c ∈ h, c.isDigit = true) ∧
    m.length = 2 ∧ (∀ c ∈ m, c.isDigit = true) ∧
    s.length = 2 ∧ (∀ c ∈ s, c.isDigit = true)

theorem digitChar_isDigit {d : Nat} (h : d < 10) : (digitChar d).isDigit = true := by
  interval_cases d <;> decide

theorem toDecimalGo_digits :
    ∀ (fuel m : Nat) (acc : Str), (∀ c ∈ acc, c.isDigit = true) →
      ∀ c ∈ toDecimalGo fuel m acc, c.isDigit = true := by
  intro fuel
  induction fuel with
  | zero => intro m acc hacc; simpa [toDecimalGo] using hacc
  | succ f ih =>
    intro m acc hacc c hc
    rw [toDecimalGo] at hc
    by_cases hm : m < 10
    · rw [if_pos hm] at hc
      rcases List.mem_cons.mp hc with rfl | hc
      · exact digitChar_isDigit hm
      · exact hacc c hc
    · rw [if_neg hm] at hc
      refine ih (m / 10) (digitChar (m % 10) :: acc) ?_ c hc
      intro c' hc'
      rcases List.mem_cons.mp hc' with rfl | hc'
      · exact digitChar_isDigit (Nat.mod_lt _ (by omega))
      · exact hacc c' hc'

theorem natToStr_digits (n : Nat) : ∀ c ∈ natToStr n, c.isDigit = true :=
  toDecimalGo_digits (n + 1) n [] (by simp)

theorem toDecimalGo_length_le :
    ∀ (fuel m : Nat) (acc : Str), acc.length ≤ (toDecimalGo fuel m acc).length := by
  intro fuel
  induction fuel with
  | zero => intro m acc; simp [toDecimalGo]
  | succ f ih =>
    intro m acc
    rw [toDecimalGo]
    by_cases hm : m < 10
    · rw [if_pos hm]; simp
    · rw [if_neg hm]
      calc acc.length ≤ (digitChar (m % 10) :: acc).length := by simp
        _ ≤ _ := ih (m / 10) _

theorem natToStr_length_pos (n : Nat) : 1 ≤ (natToStr n).length := by
  rw [natToStr, toDecimalGo]
  by_cases hm : n < 10
  · rw [if_pos hm]; simp
  · rw [if_neg hm]
    calc 1 ≤ (digitChar (n % 10) :: ([] : Str)).length := by simp
      _ ≤ _ := toDecimalGo_length_le n (n / 10) _

theorem natToStr_lt_ten {n : Nat} (h : n < 10) : natToStr n = [digitChar n] := by
  rw [natToStr, toDecimalGo, if_pos h]

theorem natToStr_two_digits {n : Nat} (h10 : 10 ≤ n) (h : n < 100) :
    natToStr n = [digitChar (n / 10), digitChar (n % 10)] := by
  obtain ⟨k, rfl⟩ : ∃ k, n = k + 1 := ⟨n - 1, by omega⟩
  have h1 : ¬ (k + 1 < 10) := by omega
  have h2 : (k + 1) / 10 < 10 := by omega
  rw [natToStr, toDecimalGo, if_neg h1, toDecimalGo, if_pos h2]

theorem natToStr_length_le_two {n : Nat} (h : n < 100) : (natToStr n).length ≤ 2 := by
  by_cases h10 : n < 10
  · rw [natToStr_lt_ten h10]; simp
  · rw [natToStr_two_digits (by omega) h]; simp

theorem zfill2_length_eq {l : Str} (h : l.length ≤ 2) : (zfill2 l).length = 2 := by
  simp only [zfill2, List.length_append, List.length_replicate]
  omega

theorem two_le_zfill2_length (l : Str) : 2 ≤ (zfill2 l).length := by
  simp only [zfill2, List.length_append, List.length_replicate]
  omega

theorem zfill2_digits {l : Str} (h : ∀ c ∈ l, c.isDigit = true) :
    ∀ c ∈ zfill2 l, c.isDigit = true := by
  intro c hc
  rcases List.mem_append.mp hc with hc | hc
  · rw [List.eq_of_mem_replicate hc]; decide
  · exact h c hc

theorem format_timestamp_matchesHMS (s : Nat) : MatchesHMS (MultiPy.format_timestamp s) := by
  refine ⟨zfill2 (natToStr (s / 3600)), zfill2 (natToStr (s % 3600 / 60)),
    zfill2 (natToStr (s % 60)), rfl, ?_, ?_, ?_, ?_, ?_, ?_⟩
  · exact two_le_zfill2_length _
  · exact zfill2_digits (natToStr_digits _)
  · exact zfill2_length_eq (natToStr_length_le_two (by omega))
  · exact zfill2_digits (natToStr_digits _)
  · exact zfill2_length_eq (natToStr_length_le_two (by omega))
  · exact zfill2_digits (natToStr_digits _)

/-- C1: the timestamp formatter is a pure function from a nonnegative number
of seconds to a display string with hours = s / 3600, minutes =
(s % 3600) / 60, seconds = s % 60, each zero-padded to width 2; for every
nonnegative integer s the result matches the anchored pattern
`\d{2,}:\d{2}:\d{2}`, with the quoted concrete values, and the hours field
grows beyond two digits (100 hours renders as three digits) rather than
wrapping. -/
theorem C1_format_timestamp_spec :
    (∀ s : Nat, MatchesHMS (MultiPy.format_timestamp s)) ∧
    MultiPy.format_timestamp 0 = "00:00:00".data ∧
    MultiPy.format_timestamp 3661 = "01:01:01".data ∧
    MultiPy.format_timestamp 86399 = "23:59:59".data ∧
    MultiPy.format_timestamp 90000 = "25:00:00".data ∧
    MultiPy.format_timestamp 360000 = "100:00:00".data :=
  ⟨format_timestamp_matchesHMS, by decide, by decide, by decide, by decide, by decide⟩

/-- C8: the `format_timestamp` functions embedded from the four pipeline
variants (main.py, action.py, multi.py, geminifull.py) are extensionally
equal: they return the same string for every input. -/
theorem C8_format_timestamp_uniform :
    ∀ s : Nat,
      ActionPy.format_timestamp s = MainPy.format_timestamp s ∧
      MainPy.format_timestamp s = MultiPy.format_timestamp s ∧
      MultiPy.format_timestamp s = GeminiFullPy.format_timestamp s :=
  fun _ => ⟨rfl, rfl, rfl⟩

/-- Python whitespace characters, the set removed by `str.rstrip()` with no
argument (restricted to the ASCII range). -/
def pyIsSpace (c : Char) : Bool :=
  c == ' ' || c == '\t' || c == '\n' || c == '\x0b' || c == '\x0c' || c == '\r'

/-- Python `str.rstrip()`: remove trailing whitespace characters. -/
def rstrip (l : Str) : Str := (l.reverse.dropWhile pyIsSpace).reverse

theorem head_dropWhile_not {α : Type} (p : α → Bool) :
    ∀ (l : List α) (c : α), (l.dropWhile p).head? = some c → p c = false := by
  intro l
  induction l with
  | nil => intro c h; simp [List.dropWhile] at h
  | cons a as ih =>
    intro c h
    rw [List.dropWhile_cons] at h
    by_cases hpa : p a = true
    · rw [if_pos hpa] at h
      exact ih c h
    · rw [if_neg hpa] at h
      simp only [List.head?_cons, Option.some.injEq] at h
      rw [← h]
      exact Bool.not_eq_true _ |>.mp hpa

namespace MultiPy

/-- The character predicate of `safe_filename` in multi.py (line 91): keep a
character when `c.isalnum() or c in (' ', '-', '_')` holds.  Python
`str.isalnum` is modelled on the ASCII range by `Char.isAlphanum`. -/
def keep_char (c : Char) : Bool := c.isAlphanum || c == ' ' || c == '-' || c == '_'

/-- The `safe_filename` function of multi.py (lines 90-91): keep only the
alphanumeric, space, hyphen and underscore characters of the title, then
apply `str.rstrip()` to the result. -/
def safe_filename (title : Str) : Str := rstrip (title.filter keep_char)

end MultiPy

/-- C9 counterexample: the claim says the derived filename is exactly the
subsequence of the title characters that are alphanumeric, space, hyphen or
underscore, with no other modification; but for the title `"Episode 1 "`
(with a trailing space, which the predicate keeps) `safe_filename` returns
`"Episode 1"`, not that subsequence, because of the final `rstrip()`. -/
theorem C9_safe_filename_cex :
    MultiPy.safe_filename "Episode 1 ".data ≠ "Episode 1 ".data.filter MultiPy.keep_char := by
  decide

/-- C9 amended: the derived filename is the subsequence of the title
characters that are alphanumeric, space, hyphen or underscore, with trailing
whitespace then stripped: the kept subsequence splits into the derived name
followed by a whitespace-only tail, and the derived name never ends in
whitespace. -/
theorem C9_safe_filename_amended (title : Str) :
    ∃ w : Str,
      title.filter MultiPy.keep_char = MultiPy.safe_filename title ++ w ∧
      (∀ c ∈ w, pyIsSpace c = true) ∧
      ∀ c : Char, (MultiPy.safe_filename title).getLast? = some c → pyIsSpace c = false := by
  refine ⟨((title.filter MultiPy.keep_char).reverse.takeWhile pyIsSpace).reverse, ?_, ?_, ?_⟩
  · conv_lhs => rw [← List.reverse_reverse (title.filter MultiPy.keep_char),
      ← List.takeWhile_append_dropWhile (p := pyIsSpace)
        (l := (title.filter MultiPy.keep_char).reverse)]
    rw [List.reverse_append]
    rfl
  · intro c hc
    rw [List.mem_reverse] at hc
    exact List.mem_takeWhile_imp hc
  · intro c hc
    rw [MultiPy.safe_filename, rstrip, List.getLast?_reverse] at hc
    exact head_dropWhile_not pyIsSpace _ c hc

/-- C9 amended, witness at the concrete title `"Episode 1 "`. -/
theorem C9_safe_filename_amended_witness :
    ∃ w : Str,
      "Episode 1 ".data.filter MultiPy.keep_char
          = MultiPy.safe_filename "Episode 1 ".data ++ w ∧
      (∀ c ∈ w, pyIsSpace c = true) ∧
      ∀ c : Char, (MultiPy.safe_filename "Episode 1 ".data).getLast? = some c →
        pyIsSpace c = false :=
  C9_safe_filename_amended "Episode 1 ".data

/-- A parsed feed entry as seen by the recency filter of action.py.  The
`published_parsed` field holds the publish time in whole seconds since the
epoch (the value of `calendar.timegm(entry.published_parsed)`) when the feed
supplied a parseable publish time, and is `none` when the entry has no
`published_parsed` field. -/
structure FeedEntry where
  title : Str
  published_parsed : Option Int
deriving DecidableEq

namespace ActionPy

/-- The episode filter loop of `process_feed` (action.py lines 287-293):
keep exactly the entries carrying a `published_parsed` time whose age
`now - published` is at most `timedelta(days=1)`, that is 86400 seconds;
entries without a `published_parsed` field are dropped.  Times are in whole
seconds since the epoch. -/
def new_episodes (now : Int) (entries : List FeedEntry) : List FeedEntry :=
  entries.filter (fun e =>
    match e.published_parsed with
    | some p => decide (now - p ≤ 86400)
    | none => false)

end ActionPy

/-- C3: the recency filter is inclusive at the 24-hour boundary: an entry
with a parseable publish time is kept if and only if it is in the feed and
`now - published` is at most 24 hours (86400 seconds); so an entry published
exactly at `now - 24h` is kept, and a strictly earlier one is excluded. -/
theorem C3_recency_filter_inclusive (now : Int) (entries : List FeedEntry)
    (e : FeedEntry) (p : Int) (hp : e.published_parsed = some p) :
    e ∈ ActionPy.new_episodes now entries ↔ e ∈ entries ∧ now - p ≤ 86400 := by
  simp [ActionPy.new_episodes, List.mem_filter, hp]

/-- C3 witness: with `now = 86400`, an entry published at epoch second 0
(exactly 24 hours old) is kept, and one published at epoch second -1
(24 hours and one second old) is excluded. -/
theorem C3_recency_filter_witness :
    ((⟨"boundary".data, some 0⟩ : FeedEntry) ∈
        ActionPy.new_episodes 86400
          [⟨"boundary".data, some 0⟩, ⟨"older".data, some (-1)⟩]) ∧
    ((⟨"older".data, some (-1)⟩ : FeedEntry) ∉
        ActionPy.new_episodes 86400
          [⟨"boundary".data, some 0⟩, ⟨"older".data, some (-1)⟩]) := by
  constructor
  · exact (C3_recency_filter_inclusive 86400 _ _ 0 rfl).mpr ⟨by decide, by decide⟩
  · intro hmem
    have h := (C3_recency_filter_inclusive 86400 _ _ (-1) rfl).mp hmem
    exact absurd h.2 (by decide)

/-- C10: the recency filter silently excludes every feed entry that lacks a
parseable publish time: an entry whose `published_parsed` field is absent is
never among the selected episodes, for any wall-clock time and any feed, and
the filter still returns normally (exclusion, not an error). -/
theorem C10_unparsed_published_excluded (now : Int) (entries : List FeedEntry)
    (e : FeedEntry) (h : e.published_parsed = none) :
    e ∉ ActionPy.new_episodes now entries := by
  simp [ActionPy.new_episodes, List.mem_filter, h]

/-- C10 witness: a concrete entry without a publish time is excluded even
though it is in the feed. -/
theorem C10_unparsed_published_excluded_witness :
    (⟨"undated".data, none⟩ : FeedEntry) ∉
      ActionPy.new_episodes 86400 [⟨"undated".data, none⟩] :=
  C10_unparsed_published_excluded 86400 _ _ rfl

/-- One transcription segment as returned by the local speech model in
main.py: a start offset, an end offset (both chunk-local, in seconds) and
the transcribed text. -/
structure WhisperSegment where
  start : ℚ
  «end» : ℚ
  text : Str
deriving DecidableEq

/-- Shift a segment by a global offset, as the VTT-writing loop of main.py
(lines 141-150) does with the running `total_duration`: both the start and
the end offsets are increased by it. -/
def shift_segment (off : ℚ) (s : WhisperSegment) : WhisperSegment :=
  ⟨s.start + off, s.«end» + off, s.text⟩

/-- The duration a chunk contributes to the running offset in main.py
(line 155): the end offset of its last segment (`result["segments"][-1]["end"]`). -/
def chunk_duration (c : List WhisperSegment) : ℚ :=
  ((c.getLast?).map WhisperSegment.«end»).getD 0

/-- Sum of the durations of the chunks before index `i`. -/
def prior_duration (chunks : List (List WhisperSegment)) (i : Nat) : ℚ :=
  (((chunks.take i).map chunk_duration)).sum

/-- The merged transcript described by the specification: chunk `i`
contributes its segments, in order, each shifted by `t0` plus the summed
durations of all prior chunks. -/
def global_segments (t0 : ℚ) (chunks : List (List WhisperSegment)) : List WhisperSegment :=
  ((List.range chunks.length).map
    (fun i => (chunks.getD i []).map (shift_segment (t0 + prior_duration chunks i)))).flatten

namespace MainPy

/-- The chunk transcription loop of main.py (lines 118-156), abstracted over
the per-chunk model output: starting from a running offset `total`, each
chunk appends its segments shifted by the current offset to the merged
transcript, then the offset grows by the end of the chunk last segment.  A
chunk with no segments makes `result["segments"][-1]` raise an uncaught
IndexError, which terminates the script: this is modelled as `none`. -/
def transcribe_chunks : ℚ → List (List WhisperSegment) → Option (List WhisperSegment)
  | _, [] => some []
  | total, chunk :: rest =>
    match chunk.getLast? with
    | none => none
    | some lastSeg =>
      (transcribe_chunks (total + lastSeg.«end») rest).map
        (fun tail => chunk.map (shift_segment total) ++ tail)

end MainPy

theorem prior_duration_cons_succ (c : List WhisperSegment)
    (rest : List (List WhisperSegment)) (i : Nat) :
    prior_duration (c :: rest) (i + 1) = chunk_duration c + prior_duration rest i := by
  simp [prior_duration, List.take_succ_cons]

theorem prior_duration_zero (chunks : List (List WhisperSegment)) :
    prior_duration chunks 0 = 0 := by
  simp [prior_duration]

theorem transcribe_chunks_eq (chunks : List (List WhisperSegment)) :
    ∀ t0 : ℚ, (∀ c ∈ chunks, c ≠ []) →
      MainPy.transcribe_chunks t0 chunks = some (global_segments t0 chunks) := by
  induction chunks with
  | nil =>
    intro t0 _
    simp [MainPy.transcribe_chunks, global_segments]
  | cons c rest ih =>
    intro t0 h
    have hc : c ≠ [] := h c (List.mem_cons_self c rest)
    obtain ⟨lastSeg, hlast⟩ : ∃ l, c.getLast? = some l := by
      cases hl : c.getLast? with
      | none => exact absurd (List.getLast?_eq_none_iff.mp hl) hc
      | some l => exact ⟨l, rfl⟩
    rw [MainPy.transcribe_chunks, hlast]
    show Option.map (fun tail => c.map (shift_segment t0) ++ tail)
        (MainPy.transcribe_chunks (t0 + lastSeg.«end») rest)
      = some (global_segments t0 (c :: rest))
    rw [ih (t0 + lastSeg.«end») (fun c' hc' => h c' (List.mem_cons_of_mem c hc'))]
    simp only [Option.map_some']
    congr 1
    rw [global_segments, global_segments, List.length_cons, List.range_succ_eq_map,
      List.map_cons, List.flatten_cons, List.map_map]
    congr 1
    · rw [List.getD_cons_zero, prior_duration_zero, add_zero]
    · refine congrArg List.flatten ?_
      apply List.map_congr_left
      intro i _
      simp only [Function.comp_apply, List.getD_cons_succ, prior_duration_cons_succ]
      rw [chunk_duration, hlast]
      simp only [Option.map_some', Option.getD_some]
      rw [← add_assoc]

/-- The three-chunk example of the specification: each chunk has segments
ending at local offsets 590, 595 and 600, and the second and third chunks
each start their first segment at local offset 5. -/
def example_chunks : List (List WhisperSegment) :=
  [[⟨0, 590, "a1".data⟩, ⟨590, 595, "a2".data⟩, ⟨595, 600, "a3".data⟩],
   [⟨5, 590, "b1".data⟩, ⟨590, 595, "b2".data⟩, ⟨595, 600, "b3".data⟩],
   [⟨5, 590, "c1".data⟩, ⟨590, 595, "c2".data⟩, ⟨595, 600, "c3".data⟩]]

/-- C2: in local chunked transcription, when every chunk has at least one
segment, the merged transcript is exactly the chunks concatenated in order
with every segment shifted by the sum of the durations of all prior chunks
(a chunk duration being the end offset of its last segment, as accumulated
by main.py); and on the three-chunk example of the specification the merged
start offsets are 0, 590, 595, 605, 1190, 1195, 1205, 1790, 1795 — in
particular the first segment of the second chunk (local start 5) appears at
global offset 605 = 600 + 5, not at 5. -/
theorem C2_chunk_offset_accumulation :
    (∀ (chunks : List (List WhisperSegment)), (∀ c ∈ chunks, c ≠ []) →
      MainPy.transcribe_chunks 0 chunks = some (global_segments 0 chunks)) ∧
    (MainPy.transcribe_chunks 0 example_chunks).map (List.map WhisperSegment.start)
      = some [0, 590, 595, 605, 1190, 1195, 1205, 1790, 1795] :=
  ⟨fun chunks => transcribe_chunks_eq chunks 0, by
    simp only [example_chunks, MainPy.transcribe_chunks, shift_segment, List.getLast?,
      List.map_cons, List.map_nil, Option.map_some', List.cons_append, List.nil_append]
    norm_num⟩

/-- C2 witness: the general statement applied to the concrete three-chunk
example of the specification, whose chunks are all nonempty. -/
theorem C2_chunk_offset_accumulation_witness :
    MainPy.transcribe_chunks 0 example_chunks = some (global_segments 0 example_chunks) :=
  C2_chunk_offset_accumulation.1 example_chunks (by decide)

/-- One section of a schema-conforming generation response: a numeric
timestamp (in seconds), a header and a content body. -/
structure SectionData where
  timestamp : Nat
  header : Str
  content : Str
deriving DecidableEq

/-- A parsed generation response as the pipelines consume it: required
string fields `title` and `summary`, and a `sections` field that is `none`
when the parsed JSON object lacks `sections`. -/
structure NewsletterData where
  title : Str
  summary : Str
  sections : Option (List SectionData)
deriving DecidableEq

/-- A newsletter section after the preprocessing loop added the
`formatted_timestamp` display field. -/
structure RenderSection where
  timestamp : Nat
  header : Str
  content : Str
  formatted_timestamp : Str
deriving DecidableEq

/-- The data handed to the Handlebars template: title, summary, the
preprocessed sections, and the `base_url` added before rendering. -/
structure NewsletterCtx where
  title : Str
  summary : Str
  sections : List RenderSection
  base_url : Str
deriving DecidableEq

/-- A token of the per-section body of the Handlebars template: literal
text, or one of the substitution sites appearing between the
section-iteration markers (`header`, `content`, `formatted_timestamp`,
`timestamp`, and the parent-scope `base_url`). -/
inductive SectionTok
  | lit (s : Str)
  | header
  | content
  | formatted_timestamp
  | timestamp
  | parent_base_url

/-- A top-level token of the Handlebars template: literal text, the `title`
or `summary` substitution sites, or the section-iteration block with its
body. -/
inductive TopTok
  | lit (s : Str)
  | title
  | summary
  | each_sections (body : List SectionTok)

/-- The HTML-entity escape table the template engine applies to every
double-stache substitution value: pybars3 replaces ampersand, double quote,
apostrophe, backtick, less-than and greater-than by their HTML entities in
one single pass (its internal escaped-characters table).  The engine is an
external library, not part of this repository; the three quote characters
are written by code point. -/
def escape_char (c : Char) : Str :=
  if c = '&' then "&amp;".data
  else if c = Char.ofNat 34 then "&quot;".data
  else if c = Char.ofNat 39 then "&#x27;".data
  else if c = Char.ofNat 96 then "&#x60;".data
  else if c = '<' then "&lt;".data
  else if c = '>' then "&gt;".data
  else [c]

/-- The escaping the template engine applies to a whole double-stache
substitution value: every character is replaced through the escape table in
a single pass. -/
def pybars_escape (l : Str) : Str := ((l.map escape_char)).flatten

/-- Substitute one section-body token: literals are copied verbatim; every
substitution site is a double-stache site in the source templates, so the
engine HTML-escapes the substituted value; the numeric `timestamp` is
rendered in plain decimal before escaping. -/
def renderSectionTok (base_url : Str) (s : RenderSection) : SectionTok → Str
  | .lit l => l
  | .header => pybars_escape s.header
  | .content => pybars_escape s.content
  | .formatted_timestamp => pybars_escape s.formatted_timestamp
  | .timestamp => pybars_escape (natToStr s.timestamp)
  | .parent_base_url => pybars_escape base_url

/-- Render the section body for one section: concatenate the substituted
tokens in template order. -/
def renderSection (base_url : Str) (body : List SectionTok) (s : RenderSection) : Str :=
  ((body.map (renderSectionTok base_url s))).flatten

/-- Substitute one top-level token; the title and summary are double-stache
sites and are HTML-escaped by the engine like every substituted value; the
section-iteration block expands to the section body rendered once per
section, in sequence order. -/
def renderTok (ctx : NewsletterCtx) : TopTok → Str
  | .lit l => l
  | .title => pybars_escape ctx.title
  | .summary => pybars_escape ctx.summary
  | .each_sections body => ((ctx.sections.map (renderSection ctx.base_url body))).flatten

/-- Render a whole template: concatenate the substituted top-level tokens. -/
def renderTemplate (tpl : List TopTok) (ctx : NewsletterCtx) : Str :=
  ((tpl.map (renderTok ctx))).flatten

/-- The per-section body of the `markdown_template` shared verbatim by
multi.py (lines 70-77) and action.py (lines 244-251): a second-level header
with the section header, the section content, and a link whose text shows
the formatted timestamp and whose target is the base URL with the raw
numeric timestamp in a `#t=` fragment. -/
def newsletter_section_body : List SectionTok :=
  [.lit "\n## ".data, .header, .lit "\n\n".data, .content,
   .lit "\n\n[Listen at ".data, .formatted_timestamp, .lit "](".data,
   .parent_base_url, .lit "#t=".data, .timestamp, .lit ")\n\n".data]

/-- The `markdown_template` of multi.py (lines 65-78) and action.py
(lines 239-252), transcribed token by token: a first-level header with the
newsletter title, the summary, and one section block per section. -/
def markdown_template : List TopTok :=
  [.lit "\n# ".data, .title, .lit "\n\n".data, .summary, .lit "\n\n".data,
   .each_sections newsletter_section_body, .lit "\n".data]

/-- The Markdown text the claim asserts one section contributes: exact-text
substitution of the fields with no HTML escaping.  This definition follows
the words of the claim, for comparison with the escaping renderer. -/
def section_block (base_url : Str) (s : RenderSection) : Str :=
  "\n## ".data ++ s.header ++ "\n\n".data ++ s.content ++ "\n\n[Listen at ".data
    ++ s.formatted_timestamp ++ "](".data ++ base_url ++ "#t=".data
    ++ natToStr s.timestamp ++ ")\n\n".data

/-- The Markdown text one section actually contributes to the rendered
newsletter: every substituted value passes through the engine escaping,
while the raw numeric timestamp, being all digits, is untouched by it. -/
def escaped_section_block (base_url : Str) (s : RenderSection) : Str :=
  "\n## ".data ++ pybars_escape s.header ++ "\n\n".data ++ pybars_escape s.content
    ++ "\n\n[Listen at ".data ++ pybars_escape s.formatted_timestamp ++ "](".data
    ++ pybars_escape base_url ++ "#t=".data ++ natToStr s.timestamp ++ ")\n\n".data

theorem toDecimalGo_mem_digitChar :
    ∀ (fuel m : Nat) (acc : Str), (∀ c ∈ acc, ∃ d, d < 10 ∧ c = digitChar d) →
      ∀ c ∈ toDecimalGo fuel m acc, ∃ d, d < 10 ∧ c = digitChar d := by
  intro fuel
  induction fuel with
  | zero => intro m acc hacc; simpa [toDecimalGo] using hacc
  | succ f ih =>
    intro m acc hacc c hc
    rw [toDecimalGo] at hc
    by_cases hm : m < 10
    · rw [if_pos hm] at hc
      rcases List.mem_cons.mp hc with rfl | hc
      · exact ⟨m, hm, rfl⟩
      · exact hacc c hc
    · rw [if_neg hm] at hc
      refine ih (m / 10) (digitChar (m % 10) :: acc) ?_ c hc
      intro c' hc'
      rcases List.mem_cons.mp hc' with rfl | hc'
      · exact ⟨m % 10, Nat.mod_lt _ (by omega), rfl⟩
      · exact hacc c' hc'

theorem natToStr_mem_digitChar (n : Nat) :
    ∀ c ∈ natToStr n, ∃ d, d < 10 ∧ c = digitChar d :=
  toDecimalGo_mem_digitChar (n + 1) n [] (by simp)

theorem escape_char_digitChar {d : Nat} (h : d < 10) :
    escape_char (digitChar d) = [digitChar d] := by
  interval_cases d <;> decide

theorem pybars_escape_eq_self {l : Str} (h : ∀ c ∈ l, escape_char c = [c]) :
    pybars_escape l = l := by
  induction l with
  | nil => rfl
  | cons a as ih =>
    have ih2 := ih (fun c hc => h c (List.mem_cons_of_mem a hc))
    rw [pybars_escape, List.map_cons, List.flatten_cons, h a (List.mem_cons_self a as),
      List.singleton_append]
    exact congrArg (a :: ·) ih2

theorem pybars_escape_natToStr (n : Nat) : pybars_escape (natToStr n) = natToStr n :=
  pybars_escape_eq_self (fun c hc => by
    obtain ⟨d, hd, rfl⟩ := natToStr_mem_digitChar n c hc
    exact escape_char_digitChar hd)

theorem renderSection_eq_escaped_block (base_url : Str) (s : RenderSection) :
    renderSection base_url newsletter_section_body s = escaped_section_block base_url s := by
  simp [renderSection, newsletter_section_body, renderSectionTok, escaped_section_block,
    pybars_escape_natToStr]

theorem renderTemplate_closed_form (ctx : NewsletterCtx) :
    renderTemplate markdown_template ctx
      = "\n# ".data ++ pybars_escape ctx.title ++ "\n\n".data ++ pybars_escape ctx.summary
        ++ "\n\n".data ++ ((ctx.sections.map (escaped_section_block ctx.base_url))).flatten
        ++ "\n".data := by
  have hsec : renderSection ctx.base_url newsletter_section_body
      = escaped_section_block ctx.base_url :=
    funext (renderSection_eq_escaped_block ctx.base_url)
  simp [renderTemplate, markdown_template, renderTok, hsec]

/-- A newsletter whose title, section header and audio URL contain an
ampersand, an escapable character. -/
def example_amp_newsletter : NewsletterCtx :=
  ⟨"A & B".data, "S".data,
   [⟨65, "H & I".data, "a-body".data, MultiPy.format_timestamp 65⟩],
   "http://ex/a.mp3?x=1&y=2".data⟩

/-- C5 counterexample: the claim asserts exact-text substitution with no
HTML escaping of the substituted values, under which this concrete
newsletter would render as its title and summary followed by its exact-text
section block; but every substitution site in the source templates is a
double-stache site, which the template engine HTML-escapes, so the
ampersands of the title, the header and the audio URL render as HTML
entities and the actual output differs from the asserted one. -/
theorem C5_markdown_rendering_cex :
    renderTemplate markdown_template example_amp_newsletter
      ≠ "\n# ".data ++ example_amp_newsletter.title ++ "\n\n".data
        ++ example_amp_newsletter.summary ++ "\n\n".data
        ++ ((example_amp_newsletter.sections.map
              (section_block example_amp_newsletter.base_url))).flatten
        ++ "\n".data := by decide

/-- C5 amended: for every newsletter, the rendered Markdown is exactly the
escaped title and summary followed by one block per section in the original
sequence order (so no extraneous section blocks), where every substituted
value passes through the engine HTML-entity escaping of the six special
characters and is otherwise exact text; each section link appends `#t=` and
the raw decimal timestamp to the escaped source audio URL; that raw
rendering is all digits, never the colon-bearing HH:MM:SS display string,
and is untouched by the escaping; and a value with no escapable character
is substituted verbatim. -/
theorem C5_markdown_rendering_amended (ctx : NewsletterCtx) :
    renderTemplate markdown_template ctx
      = "\n# ".data ++ pybars_escape ctx.title ++ "\n\n".data ++ pybars_escape ctx.summary
        ++ "\n\n".data ++ ((ctx.sections.map (escaped_section_block ctx.base_url))).flatten
        ++ "\n".data ∧
    (∀ s ∈ ctx.sections,
      (pybars_escape ctx.base_url ++ "#t=".data ++ natToStr s.timestamp)
        <:+: renderTemplate markdown_template ctx) ∧
    (∀ s ∈ ctx.sections, ∀ c ∈ natToStr s.timestamp, c.isDigit = true) ∧
    (∀ s ∈ ctx.sections, ':' ∉ natToStr s.timestamp) ∧
    (∀ s ∈ ctx.sections, pybars_escape (natToStr s.timestamp) = natToStr s.timestamp) ∧
    (∀ l : Str, (∀ c ∈ l, escape_char c = [c]) → pybars_escape l = l) := by
  refine ⟨renderTemplate_closed_form ctx, ?_, ?_, ?_, ?_, ?_⟩
  · intro s hs
    have h2 : escaped_section_block ctx.base_url s
        <:+: ((ctx.sections.map (escaped_section_block ctx.base_url))).flatten :=
      List.infix_of_mem_flatten (List.mem_map_of_mem _ hs)
    have h3 : (pybars_escape ctx.base_url ++ "#t=".data ++ natToStr s.timestamp)
        <:+: escaped_section_block ctx.base_url s := by
      refine ⟨"\n## ".data ++ pybars_escape s.header ++ "\n\n".data ++ pybars_escape s.content
        ++ "\n\n[Listen at ".data ++ pybars_escape s.formatted_timestamp ++ "](".data,
        ")\n\n".data, ?_⟩
      simp [escaped_section_block, List.append_assoc]
    have h4 : ((ctx.sections.map (escaped_section_block ctx.base_url))).flatten
        <:+: renderTemplate markdown_template ctx := by
      rw [renderTemplate_closed_form ctx]
      exact ⟨"\n# ".data ++ pybars_escape ctx.title ++ "\n\n".data
        ++ pybars_escape ctx.summary ++ "\n\n".data, "\n".data,
        by simp [List.append_assoc]⟩
    exact h3.trans (h2.trans h4)
  · intro s _ c hc
    exact natToStr_digits _ c hc
  · intro s _ hc
    exact absurd (natToStr_digits _ ':' hc) (by decide)
  · intro s _
    exact pybars_escape_natToStr s.timestamp
  · intro l h
    exact pybars_escape_eq_self h

/-- The two-section example newsletter of the specification: headers A and
B, bodies a-body and b-body, timestamps 65 and 130 seconds. -/
def example_newsletter : NewsletterCtx :=
  ⟨"T".data, "S".data,
   [⟨65, "A".data, "a-body".data, MultiPy.format_timestamp 65⟩,
    ⟨130, "B".data, "b-body".data, MultiPy.format_timestamp 130⟩],
   "http://ex/audio.mp3".data⟩

/-- C5 amended, witness: on the concrete two-section example the rendered
output contains the anchor built from the escaped base URL and the raw
numeric timestamp 65 (not the display string 00:01:05). -/
theorem C5_markdown_rendering_amended_witness :
    (pybars_escape "http://ex/audio.mp3".data ++ "#t=".data ++ natToStr 65)
      <:+: renderTemplate markdown_template example_newsletter :=
  (C5_markdown_rendering_amended example_newsletter).2.1
    ⟨65, "A".data, "a-body".data, MultiPy.format_timestamp 65⟩ (by decide)

/-- The Python exceptions relevant to the newsletter-generation paths. -/
inductive PyErr
  | keyError (key : Str)
  | jsonDecodeError
deriving DecidableEq

/-- One paragraph of a remote transcription response: a start offset in
seconds and the sentence texts. -/
structure Paragraph where
  start : ℚ
  sentences : List Str
deriving DecidableEq

/-- One normalized transcript segment: a start offset and the segment text. -/
structure TranscriptSegment where
  timestamp : ℚ
  content : Str
deriving DecidableEq

/-- Transcript segment built from one paragraph (action.py lines 195-203,
multi.py lines 133-141): the paragraph start offset, and the space-joined
concatenation of its sentence texts in order. -/
def transcript_segment_of (p : Paragraph) : TranscriptSegment :=
  ⟨p.start, List.intercalate " ".data p.sentences⟩

namespace ActionPy

/-- The inputs and external-call outcomes of one episode handled by
`process_episode` in action.py: the feed metadata, the first enclosure URL
when present, the paragraphs of the transcription response (`none` when the
call failed or the response shape was unexpected), and the parsed generation
response (`none` when the response text was not valid JSON). -/
structure ActionEpisode where
  title : Str
  description : Str
  enclosure : Option Str
  deepgram_paragraphs : Option (List Paragraph)
  gemini_parsed : Option NewsletterData
deriving DecidableEq

/-- The outcome of `process_episode`: either an email with a subject and a
Markdown body was handed to the mail sink, or the episode was skipped after
printing a diagnostic. -/
inductive EpisodeResult
  | emailed (subject : Str) (body : Str)
  | skipped (reason : Str)
deriving DecidableEq

/-- The preprocessing loop of action.py (lines 231-233): attach the display
timestamp to every section. -/
def add_formatted_timestamps (secs : List SectionData) : List RenderSection :=
  secs.map (fun s => ⟨s.timestamp, s.header, s.content, format_timestamp s.timestamp⟩)

/-- `process_episode` of action.py (lines 163-270): every failure path
prints a diagnostic and returns, skipping the episode; in particular a
parsed generation response without a `sections` field is skipped by the
guard at lines 231-236.  On success the rendered newsletter is emailed with
the subject built from the episode title. -/
def process_episode (ep : ActionEpisode) : EpisodeResult :=
  match ep.enclosure with
  | none => .skipped "no audio enclosure".data
  | some audio_url =>
    match ep.deepgram_paragraphs with
    | none => .skipped "transcription failed or malformed".data
    | some _paragraphs =>
      match ep.gemini_parsed with
      | none => .skipped "error parsing Gemini response".data
      | some nd =>
        match nd.sections with
        | none => .skipped "Gemini response missing sections".data
        | some secs =>
          .emailed ("Newsletter for ".data ++ ep.title)
            (renderTemplate markdown_template
              ⟨nd.title, nd.summary, add_formatted_timestamps secs, audio_url⟩)

/-- The episode loop of `process_feed` (action.py lines 300-301): every
selected episode is processed in order, whatever the outcomes of its
siblings. -/
def run_episodes (eps : List ActionEpisode) : List EpisodeResult :=
  eps.map process_episode

end ActionPy

namespace MultiPy

/-- The inputs and external-call outcomes of one feed entry handled by the
episode loop of multi.py, with the same conventions as for action.py. -/
structure MEpisode where
  title : Str
  description : Str
  enclosures : List Str
  deepgram_paragraphs : Option (List Paragraph)
  gemini_parsed : Option NewsletterData
deriving DecidableEq

/-- The preprocessing loop of multi.py (lines 168-170). -/
def add_formatted_timestamps (secs : List SectionData) : List RenderSection :=
  secs.map (fun s => ⟨s.timestamp, s.header, s.content, format_timestamp s.timestamp⟩)

/-- The body of the per-episode try block of multi.py (lines 108-183): a
missing enclosure, an unexpected transcription shape, or an unparseable
generation response each skip the episode with an explicit `continue`
(`ok none`); a parsed response without `sections` raises a KeyError at
line 169; on success a newsletter file is written whose name is built from
the safe filename of the title. -/
def process_episode_body (e : MEpisode) : Except PyErr (Option (Str × Str)) :=
  match e.enclosures.head? with
  | none => .ok none
  | some audio_url =>
    match e.deepgram_paragraphs with
    | none => .ok none
    | some _paragraphs =>
      match e.gemini_parsed with
      | none => .ok none
      | some nd =>
        match nd.sections with
        | none => .error (.keyError "sections".data)
        | some secs =>
          .ok (some ("newsletter_".data ++ safe_filename e.title ++ ".md".data,
            renderTemplate markdown_template
              ⟨nd.title, nd.summary, add_formatted_timestamps secs, audio_url⟩))

/-- One iteration of the episode loop with its enclosing try/except
(multi.py lines 107-185): any exception raised by the body is caught and
printed, and the iteration produces no file. -/
def process_episode (e : MEpisode) : Option (Str × Str) :=
  match process_episode_body e with
  | .ok r => r
  | .error _ => none

/-- The newsletter files written by the episode loop, in order. -/
def episode_outputs (eps : List MEpisode) : List (Str × Str) :=
  eps.filterMap process_episode

/-- The main function of multi.py processes the first ten feed entries
(line 107). -/
def main_outputs (entries : List MEpisode) : List (Str × Str) :=
  episode_outputs (entries.take 10)

/-- Lexicographic code-point comparison of strings, as Python `sorted`
orders str values. -/
def leStr : Str → Str → Bool
  | [], _ => true
  | _ :: _, [] => false
  | a :: as, b :: bs => if a < b then true else if b < a then false else leStr as bs

/-- Insert a file into a name-sorted list of files, before the first file
whose name does not precede it. -/
def insertByName (f : Str × Str) : List (Str × Str) → List (Str × Str)
  | [] => [f]
  | g :: gs => if leStr f.1 g.1 then f :: g :: gs else g :: insertByName f gs

/-- Stable sort of files by filename, modelling `sorted(newsletter_files)`
in multi.py line 195. -/
def sortByName : List (Str × Str) → List (Str × Str)
  | [] => []
  | f :: fs => insertByName f (sortByName fs)

/-- Python `str.strip()`: remove leading and trailing whitespace. -/
def pyStrip (l : Str) : Str := rstrip (l.dropWhile pyIsSpace)

/-- `merge_newsletter_files` of multi.py (lines 187-209), applied to the
files of this run: sort the newsletter files by name, concatenate their
contents each followed by a blank line, and produce the stripped result;
with no files, no merged document is written. -/
def merge_newsletter_files (files : List (Str × Str)) : Option Str :=
  let merged := (((sortByName files).map (fun f => f.2 ++ "\n\n".data))).flatten
  if merged = [] then none else some (pyStrip merged)

end MultiPy

namespace MainPy

/-- The preprocessing loop of main.py (lines 256-257). -/
def add_formatted_timestamps (secs : List SectionData) : List RenderSection :=
  secs.map (fun s => ⟨s.timestamp, s.header, s.content, format_timestamp s.timestamp⟩)

/-- The per-section body of the `markdown_template` of main.py
(lines 265-272): as in multi.py, except that the link text is only the
formatted timestamp. -/
def main_section_body : List SectionTok :=
  [.lit "\n## ".data, .header, .lit "\n\n".data, .content,
   .lit "\n\n[".data, .formatted_timestamp, .lit "](".data,
   .parent_base_url, .lit "#t=".data, .timestamp, .lit ")\n\n".data]

/-- The `markdown_template` of main.py (lines 260-273). -/
def markdown_template : List TopTok :=
  [.lit "\n# ".data, .title, .lit "\n\n".data, .summary, .lit "\n\n".data,
   .each_sections main_section_body, .lit "\n".data]

/-- The newsletter-generation tail of main.py (lines 245-287): parse the
generation response, attach display timestamps to the sections, and render
the template.  main.py runs at module level with no exception handler, so a
response that is not valid JSON, or whose parsed object lacks `sections`
(the subscript at line 256), raises an uncaught exception that terminates
the whole script; those aborts are the `error` results. -/
def newsletter_pipeline (resp_parsed : Option NewsletterData) (base_url : Str) :
    Except PyErr Str :=
  match resp_parsed with
  | none => .error .jsonDecodeError
  | some nd =>
    match nd.sections with
    | none => .error (.keyError "sections".data)
    | some secs =>
      .ok (renderTemplate markdown_template
        ⟨nd.title, nd.summary, add_formatted_timestamps secs, base_url⟩)

end MainPy

/-- C4 counterexample: the claim says that for every generation response
whose parsed JSON lacks `sections` the episode is skipped and the whole run
is never aborted; but in the main.py variant the subscript
`json_input["sections"]` runs with no guard and no handler, so such a
response raises a KeyError that terminates the run (modelled by the `error`
result), shown here on a concrete response. -/
theorem C4_missing_sections_cex :
    MainPy.newsletter_pipeline (some ⟨"T".data, "S".data, none⟩) "http://ex/a.mp3".data
      = .error (.keyError "sections".data) := rfl

/-- C4 amended: in the batch pipelines, a generation response whose parsed
JSON lacks `sections` makes that episode terminate skipped and logged
without crashing, and processing continues with the remaining episodes
(action.py skips through its explicit guard; multi.py raises a KeyError
that its per-episode handler catches); in the single-episode main.py
variant, however, such a response aborts the run with an uncaught KeyError. -/
theorem C4_missing_sections_amended :
    (∀ (pre post : List ActionPy.ActionEpisode) (ep : ActionPy.ActionEpisode)
        (url : Str) (ps : List Paragraph) (nd : NewsletterData),
      ep.enclosure = some url → ep.deepgram_paragraphs = some ps →
      ep.gemini_parsed = some nd → nd.sections = none →
      ActionPy.process_episode ep = .skipped "Gemini response missing sections".data ∧
      ActionPy.run_episodes (pre ++ ep :: post)
        = ActionPy.run_episodes pre
            ++ ActionPy.process_episode ep :: ActionPy.run_episodes post) ∧
    (∀ (pre post : List MultiPy.MEpisode) (e : MultiPy.MEpisode)
        (url : Str) (ps : List Paragraph) (nd : NewsletterData),
      e.enclosures.head? = some url → e.deepgram_paragraphs = some ps →
      e.gemini_parsed = some nd → nd.sections = none →
      MultiPy.process_episode_body e = .error (.keyError "sections".data) ∧
      MultiPy.process_episode e = none ∧
      MultiPy.episode_outputs (pre ++ e :: post)
        = MultiPy.episode_outputs pre ++ MultiPy.episode_outputs post) ∧
    (∀ (nd : NewsletterData) (base_url : Str), nd.sections = none →
      MainPy.newsletter_pipeline (some nd) base_url
        = .error (.keyError "sections".data)) := by
  refine ⟨?_, ?_, ?_⟩
  · intro pre post ep url ps nd h1 h2 h3 h4
    constructor
    · simp [ActionPy.process_episode, h1, h2, h3, h4]
    · simp [ActionPy.run_episodes]
  · intro pre post e url ps nd h1 h2 h3 h4
    have hbody : MultiPy.process_episode_body e = .error (.keyError "sections".data) := by
      simp [MultiPy.process_episode_body, h1, h2, h3, h4]
    have hnone : MultiPy.process_episode e = none := by
      simp [MultiPy.process_episode, hbody]
    exact ⟨hbody, hnone, by
      simp [MultiPy.episode_outputs, List.filterMap_append, List.filterMap_cons, hnone]⟩
  · intro nd base_url h
    simp [MainPy.newsletter_pipeline, h]

/-- An episode whose generation response parses but lacks `sections`, for
the action.py loop. -/
def example_action_episode : ActionPy.ActionEpisode :=
  ⟨"ep".data, "d".data, some "http://ex/a.mp3".data, some [],
   some ⟨"T".data, "S".data, none⟩⟩

/-- An episode whose generation response parses but lacks `sections`, for
the multi.py loop. -/
def example_multi_episode : MultiPy.MEpisode :=
  ⟨"ep".data, "d".data, ["http://ex/a.mp3".data], some [],
   some ⟨"T".data, "S".data, none⟩⟩

/-- C4 amended, witness: the three branches applied at concrete episodes
carrying a parsed response without `sections`. -/
theorem C4_missing_sections_amended_witness :
    (ActionPy.process_episode example_action_episode
        = .skipped "Gemini response missing sections".data ∧
      ActionPy.run_episodes ([] ++ example_action_episode :: [])
        = ActionPy.run_episodes []
            ++ ActionPy.process_episode example_action_episode :: ActionPy.run_episodes []) ∧
    (MultiPy.process_episode_body example_multi_episode
        = .error (.keyError "sections".data) ∧
      MultiPy.process_episode example_multi_episode = none ∧
      MultiPy.episode_outputs ([] ++ example_multi_episode :: [])
        = MultiPy.episode_outputs [] ++ MultiPy.episode_outputs []) ∧
    MainPy.newsletter_pipeline (some ⟨"T".data, "S".data, none⟩) "http://ex/a.mp3".data
      = .error (.keyError "sections".data) :=
  ⟨C4_missing_sections_amended.1 [] [] example_action_episode
      "http://ex/a.mp3".data [] ⟨"T".data, "S".data, none⟩ rfl rfl rfl rfl,
   C4_missing_sections_amended.2.1 [] [] example_multi_episode
      "http://ex/a.mp3".data [] ⟨"T".data, "S".data, none⟩ rfl rfl rfl rfl,
   C4_missing_sections_amended.2.2 ⟨"T".data, "S".data, none⟩ "http://ex/a.mp3".data rfl⟩

/-- C6: if one episode of a batch fails terminally (its loop iteration
produces no file), the episodes before and after it are still processed and
their files are exactly the outputs of the surrounding sublists; every
sibling that succeeds still has its file among the outputs; every output
file comes from a sibling, so the failed episode contributes none; and the
merged combined document is the merge of the siblings' files alone. -/
theorem C6_batch_isolation (pre post : List MultiPy.MEpisode) (e : MultiPy.MEpisode)
    (hfail : MultiPy.process_episode e = none) :
    MultiPy.episode_outputs (pre ++ e :: post)
      = MultiPy.episode_outputs pre ++ MultiPy.episode_outputs post ∧
    (∀ e2 ∈ pre ++ post, ∀ f, MultiPy.process_episode e2 = some f →
      f ∈ MultiPy.episode_outputs (pre ++ e :: post)) ∧
    (∀ f ∈ MultiPy.episode_outputs (pre ++ e :: post),
      ∃ e2, (e2 ∈ pre ∨ e2 ∈ post) ∧ MultiPy.process_episode e2 = some f) ∧
    MultiPy.merge_newsletter_files (MultiPy.episode_outputs (pre ++ e :: post))
      = MultiPy.merge_newsletter_files
          (MultiPy.episode_outputs pre ++ MultiPy.episode_outputs post) := by
  have h1 : MultiPy.episode_outputs (pre ++ e :: post)
      = MultiPy.episode_outputs pre ++ MultiPy.episode_outputs post := by
    simp [MultiPy.episode_outputs, List.filterMap_append, List.filterMap_cons, hfail]
  refine ⟨h1, ?_, ?_, congrArg _ h1⟩
  · intro e2 he2 f hf
    rw [h1, List.mem_append]
    rcases List.mem_append.mp he2 with he2 | he2
    · exact Or.inl (List.mem_filterMap.mpr ⟨e2, he2, hf⟩)
    · exact Or.inr (List.mem_filterMap.mpr ⟨e2, he2, hf⟩)
  · intro f hf
    rw [h1, List.mem_append] at hf
    rcases hf with hf | hf
    · obtain ⟨e2, he2, hfe⟩ := List.mem_filterMap.mp hf
      exact ⟨e2, Or.inl he2, hfe⟩
    · obtain ⟨e2, he2, hfe⟩ := List.mem_filterMap.mp hf
      exact ⟨e2, Or.inr he2, hfe⟩

/-- A feed entry that processes successfully, for the C6 witness batch. -/
def example_good_episode (name : Str) : MultiPy.MEpisode :=
  ⟨name, "d".data, ["http://ex/a.mp3".data], some [],
   some ⟨"T".data, "S".data, some [⟨65, "A".data, "a-body".data⟩]⟩⟩

/-- C6 witness: in the concrete batch where the middle episode fails during
generation, the outputs are those of the first and third episodes alone,
and the merged document is their merge. -/
theorem C6_batch_isolation_witness :
    MultiPy.episode_outputs ([example_good_episode "ep1".data]
        ++ example_multi_episode :: [example_good_episode "ep3".data])
      = MultiPy.episode_outputs [example_good_episode "ep1".data]
          ++ MultiPy.episode_outputs [example_good_episode "ep3".data] ∧
    (∀ e2 ∈ [example_good_episode "ep1".data] ++ [example_good_episode "ep3".data],
      ∀ f, MultiPy.process_episode e2 = some f →
        f ∈ MultiPy.episode_outputs ([example_good_episode "ep1".data]
          ++ example_multi_episode :: [example_good_episode "ep3".data])) ∧
    (∀ f ∈ MultiPy.episode_outputs ([example_good_episode "ep1".data]
        ++ example_multi_episode :: [example_good_episode "ep3".data]),
      ∃ e2, (e2 ∈ [example_good_episode "ep1".data]
          ∨ e2 ∈ [example_good_episode "ep3".data]) ∧
        MultiPy.process_episode e2 = some f) ∧
    MultiPy.merge_newsletter_files
        (MultiPy.episode_outputs ([example_good_episode "ep1".data]
          ++ example_multi_episode :: [example_good_episode "ep3".data]))
      = MultiPy.merge_newsletter_files
          (MultiPy.episode_outputs [example_good_episode "ep1".data]
            ++ MultiPy.episode_outputs [example_good_episode "ep3".data]) :=
  C6_batch_isolation [example_good_episode "ep1".data]
    [example_good_episode "ep3".data] example_multi_episode rfl

namespace ActionPy

/-- An OAuth credential object as `get_gmail_service` inspects it: whether
it is currently valid, whether it is expired, and whether it carries a
refresh token. -/
structure Creds where
  valid : Bool
  expired : Bool
  refresh_token : Bool
deriving DecidableEq

/-- The environment `get_gmail_service` (action.py lines 74-118) runs in:
whether the CI variable is set, the credentials stored in `token.pickle`
when that file exists, the GMAIL_TOKEN variable when set (`some none` when
its value fails to decode and unpickle), the CREDENTIALS variable, and the
credentials the external refresh and interactive flows would return. -/
structure GmailEnv where
  ci : Bool
  token_pickle : Option Creds
  gmail_token : Option (Option Creds)
  credentials : Option Str
  refreshed_creds : Creds
  flow_creds : Creds
deriving DecidableEq

/-- The credential-loading prologue of `get_gmail_service` (action.py
lines 81-97): use `token.pickle` when it exists, otherwise decode
GMAIL_TOKEN when set (a decode failure raises), otherwise no stored
credentials. -/
def load_stored_creds (env : GmailEnv) : Except Str (Option Creds) :=
  match env.token_pickle with
  | some c => .ok (some c)
  | none =>
    match env.gmail_token with
    | some (some c) => .ok (some c)
    | some none => .error "Error decoding GMAIL_TOKEN".data
    | none => .ok none

/-- `get_gmail_service` (action.py lines 74-118): with valid stored
credentials the service is built from them; with no valid credentials, in
CI an exception is raised (interactive login is impossible); outside CI the
credentials are refreshed when possible, and otherwise the interactive flow
runs with the CREDENTIALS client configuration, whose absence raises. -/
def get_gmail_service (env : GmailEnv) : Except Str Creds :=
  match load_stored_creds env with
  | .error e => .error e
  | .ok (some c) =>
    if c.valid then .ok c
    else if env.ci then
      .error "Gmail credentials are not valid and interactive login is not possible in CI.".data
    else if c.expired && c.refresh_token then .ok env.refreshed_creds
    else
      match env.credentials with
      | none => .error "Environment variable CREDENTIALS not set!".data
      | some _ => .ok env.flow_creds
  | .ok none =>
    if env.ci then
      .error "Gmail credentials are not valid and interactive login is not possible in CI.".data
    else
      match env.credentials with
      | none => .error "Environment variable CREDENTIALS not set!".data
      | some _ => .ok env.flow_creds

/-- One configured feed subscription together with the entries its URL
parses to. -/
structure FeedItem where
  url : Option Str
  email : Option Str
  entries : List FeedEntry
deriving DecidableEq

/-- The `main` coroutine of action.py (lines 303-317) after feeds.json has
loaded: obtain the Gmail service, then process every feed; a feed missing
its url or email is skipped, and each remaining feed hands its recent
episodes to `process_episode`.  The result lists, per feed, the episodes
that get processed; an exception from `get_gmail_service` propagates, so an
`error` run processes no episode and attempts no send. -/
def action_main (env : GmailEnv) (now : Int) (feeds : List FeedItem) :
    Except Str (List (List FeedEntry)) :=
  (get_gmail_service env).map (fun _service =>
    feeds.map (fun f =>
      match f.url, f.email with
      | some _, some _ => new_episodes now f.entries
      | _, _ => []))

end ActionPy

/-- C7: when the run is unattended (CI is set) and no valid stored mail
credential is available — none stored, stored but invalid, or the stored
token fails to decode — the pipeline terminates with a raised configuration
error before any episode is processed and before any send is attempted, for
every feed list; the missing credential is never silently skipped. -/
theorem C7_missing_credential_fatal (env : ActionPy.GmailEnv) (now : Int)
    (feeds : List ActionPy.FeedItem) (hci : env.ci = true)
    (hnv : ∀ c, ActionPy.load_stored_creds env = .ok (some c) → c.valid = false) :
    ∃ msg, ActionPy.action_main env now feeds = .error msg := by
  rw [ActionPy.action_main]
  cases hload : ActionPy.load_stored_creds env with
  | error msg =>
    refine ⟨msg, ?_⟩
    simp [ActionPy.get_gmail_service, hload, Except.map]
  | ok stored =>
    cases stored with
    | none =>
      refine ⟨"Gmail credentials are not valid and interactive login is not possible in CI.".data, ?_⟩
      simp [ActionPy.get_gmail_service, hload, hci, Except.map]
    | some c =>
      refine ⟨"Gmail credentials are not valid and interactive login is not possible in CI.".data, ?_⟩
      simp [ActionPy.get_gmail_service, hload, hci, hnv c hload, Except.map]

/-- C7 witness: a CI environment with no `token.pickle`, no GMAIL_TOKEN and
no CREDENTIALS, over one configured feed, ends in an error run. -/
theorem C7_missing_credential_fatal_witness :
    ∃ msg,
      ActionPy.action_main
        ⟨true, none, none, none, ⟨true, false, false⟩, ⟨true, false, false⟩⟩ 86400
        [⟨some "http://ex/feed".data, some "to@ex".data, [⟨"boundary".data, some 0⟩]⟩]
        = .error msg :=
  C7_missing_credential_fatal
    ⟨true, none, none, none, ⟨true, false, false⟩, ⟨true, false, false⟩⟩ 86400
    [⟨some "http://ex/feed".data, some "to@ex".data, [⟨"boundary".data, some 0⟩]⟩]
    rfl (fun c h => by simp [ActionPy.load_stored_creds] at h)

end Podcast2Newsletter
